import Mathlib

/-
Verification development for the MCTS policy-manager module
(src/mcts/policymanagers/policymanager.py, class NNPolicyManager).

The Python class is shallowly embedded: the object's attribute dictionary
becomes the structure `Mcts.PMState`, attributes that `__init__` never
assigns become `Option` fields initialised to `none` (reading such an
attribute raises `AttributeError` in Python), and methods become pure
functions threading the state explicitly and returning exceptions as
values.  Repository helpers that are not part of the provided source
(`mcts.utils.puct`, `mcts.utils.zero_temperature_choice`) are modelled
from the specification and say so in their doc comments.
-/

namespace Mcts

/-- The Python exceptions that the embedded methods can raise. -/
inductive Exc where
  | attributeError
  | typeError
  | nameError
  | valueError
  | zeroDivisionError
  | systemExit
  | fitError (code : ℕ)
  | saveError (code : ℕ)
  deriving DecidableEq, Repr

/-- One per-action edge of a search node: accumulated value and visit count.
`node[a].value` in the source reads the `value` of the edge for action `a`. -/
structure Edge where
  value : ℚ
  visits : ℕ
  deriving DecidableEq, Repr

/-- A search-tree node as seen by the policy manager: its (opaque, here
flattened) game state and its per-action edges. -/
structure Node where
  state : List ℚ
  edges : List Edge
  deriving DecidableEq, Repr

/-- The attribute state of an `NNPolicyManager` object.  Every field mirrors
an attribute assigned in `__init__` (policymanager.py lines 86-125), except
`replay_ready` and `optimize_event` (`self._optimize_event` in the source):
those two are read by `update` and `_train_process` but are never assigned
anywhere in the class, so they are modelled as `Option Bool` and start as
`none` (attribute absent; `some b` stands for a `threading.Event` whose
`is_set()` returns `b`).  The external model collaborator is kept as its
policy-head prediction function `List ℚ → List ℚ`. -/
structure PMState where
  model : List ℚ → List ℚ
  next_model : List ℚ → List ℚ
  alpha : ℚ
  C : ℚ
  training : Bool
  n_policies : ℕ
  simulator : Bool
  checkpoint_interval : ℕ
  checkpoint : ℕ
  training_step : ℕ
  epsilon : ℚ
  validation_games : ℕ
  update_threshold : ℚ
  replay_states : List (List ℚ)
  replay_policies : List (List ℚ)
  replay_rewards : List ℚ
  replay_maxlen : ℕ
  replay_index : ℕ
  min_train_capacity : ℕ
  replay_ready : Option Bool
  optimize_event : Option Bool
  batch_size : ℕ
  temperature_schedule : List (ℕ × ℚ)

/-- `NNPolicyManager.__init__` (lines 86-125).  `self._next_model = model` and
`self.model = model.clone()`; a clone has the same prediction function, so both
fields receive `model`.  The Keras-only calls (`_initialize_models`, reading
`model.input.shape.ndims`) configure the external collaborator and carry no
state used by any method here.  `state_dim` is the flattened length of
`environment.state.shape`, `n_actions` is `environment.action_space`.
Note that neither `self.replay_ready` nor `self._optimize_event` is assigned. -/
def NNPolicyManager_init (model : List ℚ → List ℚ) (state_dim n_actions : ℕ)
    (checkpoint : ℕ) (validation_games : ℕ) (update_threshold : ℚ)
    (memory_size : ℕ) (alpha epsilon C : ℚ)
    (temperature_schedule : List (ℕ × ℚ)) (batch_size : ℕ)
    (training : Bool) : PMState :=
  { model := model
    next_model := model
    alpha := alpha
    C := C
    training := training
    n_policies := n_actions
    simulator := true
    checkpoint_interval := checkpoint
    checkpoint := 1
    training_step := 0
    epsilon := epsilon
    validation_games := validation_games
    update_threshold := update_threshold
    replay_states := List.replicate memory_size (List.replicate state_dim 0)
    replay_policies := List.replicate memory_size (List.replicate n_actions 0)
    replay_rewards := List.replicate memory_size 0
    replay_maxlen := memory_size
    replay_index := 0
    min_train_capacity := memory_size / 2
    replay_ready := none
    optimize_event := none
    batch_size := batch_size
    temperature_schedule := temperature_schedule }

/-- `NNPolicyManager.update` (lines 170-184).  The slot index is computed as
`self._replay_index % self.min_train_capacity` (exactly as in the source —
note it is NOT `% self.replay_maxlen`); Python's `%` raises
`ZeroDivisionError` when `min_train_capacity = 0` (i.e. `memory_size <= 1`),
BEFORE anything is written, which the leading guard models.  Otherwise the
three parallel arrays are written at that slot, the cursor is incremented,
and then the readiness check reads `self.replay_ready`.  Reading that
attribute raises `AttributeError` when it was never assigned (the
constructor never assigns it); that exception propagates AFTER the arrays
and cursor have already been mutated, which the returned pair
`(new state, raised exception)` records. -/
def update (s : PMState) (node : Node) (reward : ℚ) : PMState × Option Exc :=
  if s.min_train_capacity = 0 then (s, some Exc.zeroDivisionError)
  else
    let i := s.replay_index % s.min_train_capacity
    let edge_values := (List.range s.n_policies).map
      (fun k => (node.edges.getD k ⟨0, 0⟩).value)
    let s1 : PMState := { s with
      replay_states := s.replay_states.set i node.state
      replay_policies := s.replay_policies.set i edge_values
      replay_rewards := s.replay_rewards.set i reward
      replay_index := s.replay_index + 1 }
    match s1.replay_ready with
    | none => (s1, some Exc.attributeError)
    | some ready =>
        if ¬ready ∧ s1.replay_index > s1.min_train_capacity then
          ({ s1 with replay_ready := some true }, none)
        else (s1, none)

/-- `n` consecutive `update` calls with the same node and reward, keeping the
state each call leaves behind (the caller would have to swallow the raised
exceptions to keep appending, which this iteration makes explicit). -/
def updates (node : Node) (reward : ℚ) : ℕ → PMState → PMState
  | 0, s => s
  | n + 1, s => updates node reward n (update s node reward).1

/-- A manager built with the source's default configuration
(`checkpoint=1000, validation_games=400, update_threshold=0.55,
memory_size=10, alpha=0.03, epsilon=0.25, C=1.41,
temperature_schedule={0: 1e-2}, batch_size=4, training=False`), a
3-action environment with 2-dimensional flattened state, and a model
predicting a fixed policy vector. -/
def defaultManager : PMState :=
  NNPolicyManager_init (fun _ => [1/2, 1/4, 1/4]) 2 3
    1000 400 (55/100) 10 (3/100) (1/4) (141/100) [(0, 1/100)] 4 false

/-- A concrete 3-edge node used in the concrete evaluations. -/
def nodeEx : Node :=
  ⟨[1, 0], [⟨0, 0⟩, ⟨0, 0⟩, ⟨0, 0⟩]⟩

/-- Helper for `argmaxIdx`: fold over the tail keeping the first maximal
element seen so far (`best` at position `bestIdx`, next position `i`). -/
def argmaxFrom {α : Type} [LinearOrder α] (best : α) (bestIdx i : ℕ) :
    List α → ℕ
  | [] => bestIdx
  | x :: xs =>
      if best < x then argmaxFrom x i (i + 1) xs
      else argmaxFrom best bestIdx (i + 1) xs

/-- numpy-style `argmax`: the index of the first maximal element of the list
(numpy's `ndarray.argmax` returns the first occurrence of the maximum). -/
def argmaxIdx {α : Type} [LinearOrder α] : List α → ℕ
  | [] => 0
  | x :: xs => argmaxFrom x 0 1 xs

/-- Modelled from the spec: `mcts.utils.zero_temperature_choice` is part of
this repository but not under the provided source.  Per the spec's
action-choice contract, at (near-)zero temperature it returns the child with
the greatest visit count, ties broken by first-encountered order; the
nonzero-temperature sampling branch is irrelevant to the claims here. -/
def zero_temperature_choice (node : Node) : ℕ :=
  argmaxIdx (node.edges.map (fun e => e.visits))

/-- `NNPolicyManager.action_choice` (lines 134-139).  Python's
`if move_number:` is a truthiness test, so `None` and `0` both take the
`else` branch, `zero_temperature_choice(node)`.  Any truthy move number
enters the schedule branch, whose first evaluation step reads
`self.tempurature_schedule` — a misspelling of the attribute
`temperature_schedule` assigned in `__init__` — so Python raises
`AttributeError` before any temperature is looked up.  (Even spelled
correctly, the comprehension filters `j < 5`, a hard-coded constant rather
than the move number, and `[-1]` on an empty filtered list would raise
`IndexError`: no fallback exists.) -/
def action_choice (_s : PMState) (node : Node) (move_number : Option ℕ) :
    Except Exc ℕ :=
  match move_number with
  | some m =>
      if m = 0 then Except.ok (zero_temperature_choice node)
      else Except.error Exc.attributeError
  | none => Except.ok (zero_temperature_choice node)

/-- `NNPolicyManager.nn_policy_from_node` (lines 159-167): a single
`model.predict` on the node's state.  The batch/reshape bookkeeping
(`expand_dims`, optional trailing axis) only adapts the tensor layout for the
external model and is absorbed into the model's prediction function. -/
def nn_policy_from_node (s : PMState) (node : Node) : List ℚ :=
  s.model node.state

/-- Total visit count of a node: the sum of its per-edge visit counts. -/
def totalVisits (node : Node) : ℕ :=
  (node.edges.map (fun e => e.visits)).sum

/-- Modelled from the spec: `mcts.utils.puct` is part of this repository but
not under the provided source.  Per the spec's selection-algorithm section,
for each action `a` the score is
`mean_value_a + C * probability_a * sqrt(total_visits) / (1 + visits_a)`,
returned as a full score vector over all actions.  `Nat.sqrt` stands in as
the executable square root (an action with zero visits has mean value 0);
no claim settled here depends on the numeric value of these scores. -/
def puct (node : Node) (probabilities : List ℚ) (c : ℚ) : List ℚ :=
  (List.range node.edges.length).map (fun a =>
    let e := node.edges.getD a ⟨0, 0⟩
    let mean : ℚ := if e.visits = 0 then 0 else e.value / e.visits
    mean + c * probabilities.getD a 0 * (Nat.sqrt (totalVisits node) : ℚ)
      / (1 + (e.visits : ℚ)))

/-- `NNPolicyManager.selection` (lines 145-156).  With `root=True` the noise
expression `np.random([self.alpha]*len(probabilities))` calls the module
`numpy.random` itself (the module object is not callable), so Python raises
`TypeError` before any blend or score is computed.  With `root=False` the
returned action is `actions[pi[actions].argmax()]`: numpy fancy indexing
gathers the scores of the legal actions only, and the argmax position is
mapped back into `actions`; `argmax` of an empty gather raises `ValueError`. -/
def selection (s : PMState) (node : Node) (env_actions : List ℕ)
    (root : Bool) : Except Exc ℕ :=
  let probabilities := nn_policy_from_node s node
  if root then Except.error Exc.typeError
  else
    let pi := puct node probabilities s.C
    match env_actions with
    | [] => Except.error Exc.valueError
    | _ :: _ =>
        let gathered := env_actions.map (fun a => pi.getD a 0)
        Except.ok (env_actions.getD (argmaxIdx gathered) 0)

/-- `NNPolicyManager.rollout` (lines 141-143): delegates to `selection` with
`root=False`. -/
def rollout (s : PMState) (node : Node) (env_actions : List ℕ) :
    Except Exc ℕ :=
  selection s node env_actions false

/-- `NNPolicyManager.evaluation` (lines 219-252).  After the
`if not self.simulator: raise ValueError(...)` guard (225-226), line 230
evaluates the global name `MCTS`, which is neither imported nor defined in
the module, so Python raises `NameError` before a single game is simulated
(`current_agent`, `next_agent` and the bare `validation_games` on line 248
are likewise undefined, and the nested `NNPolicyManager(...)` calls pass the
nonexistent keywords `temperature` and `optimize`).  The promotion
comparison on lines 250-252 is therefore unreachable; its text in isolation
is `evaluation_decision` below. -/
def evaluation (s : PMState) : Except Exc PMState :=
  if s.simulator = false then Except.error Exc.valueError
  else Except.error Exc.nameError

/-- Lines 250-252 of `evaluation` in isolation (unreachable from
`evaluation` itself).  The comparison is
`results[2]['wins'] / self.validation_games > self.update_threshold`, but
its promote branch first executes `self.info("New model wins! ...")`
(line 251) — the class defines `_logger`, not `info` — so `AttributeError`
is raised BEFORE line 252's `self.model = self._next_model.clone()` can
run.  Hence even in isolation neither branch ever reassigns the live
model; the pair returned is `(unchanged state, raised exception)`. -/
def evaluation_decision (s : PMState) (wins : ℕ) : PMState × Option Exc :=
  if (wins : ℚ) / (s.validation_games : ℚ) > s.update_threshold then
    (s, some Exc.attributeError)
  else (s, none)

/-- A training batch as gathered on lines 202-204: the states, policy
targets and reward targets at the drawn indices. -/
def drawn_batch (s : PMState) (idx : List ℕ) :
    List (List ℚ) × List (List ℚ) × List ℚ :=
  (idx.map (fun i => s.replay_states.getD i []),
   idx.map (fun i => s.replay_policies.getD i []),
   idx.map (fun i => s.replay_rewards.getD i 0))

/-- How the body of `_train_process` (the `try` block, lines 193-212) can
end: the optimize flag was observed clear (`done`), the iteration fuel ran
out with the flag still set (`running`), the thread blocked forever in
`replay_ready.wait()` on a never-set event (`blocked`), or an exception
escaped (`raised`).  `done/running/raised` carry the number of completed
`fit` calls and `save` calls. -/
inductive BodyOut where
  | done : ℕ → ℕ → BodyOut
  | running : ℕ → ℕ → BodyOut
  | blocked : BodyOut
  | raised : Exc → ℕ → ℕ → BodyOut
  deriving DecidableEq, Repr

/-- One `while self._optimize_event.is_set():` iteration of `_train_process`
(lines 195-212), iterated with explicit fuel.  Reading the never-assigned
`_optimize_event` raises `AttributeError`.  `idx` is
`np.random.randint(min(self._replay_index, self.replay_maxlen),
size=batch_size)`: `batch_size` draws from `[0, min(writes, capacity))`,
modelled by reducing the oracle `rand step t` modulo the bound
(`randint(0)` itself raises `ValueError` on an empty range).  A successful
`fit` increments `self._training_step`; when it reaches `self.checkpoint`,
the checkpoint boundary is advanced by `checkpoint_interval` FIRST and the
model is saved under the advanced tag.  The external collaborator's
responses are the oracles `fitRes` (by batch and `initial_epoch`) and
`saveRes` (by checkpoint tag). -/
def train_loop (rand : ℕ → ℕ → ℕ)
    (fitRes : List (List ℚ) × List (List ℚ) × List ℚ → ℕ → Except Exc Unit)
    (saveRes : ℕ → Except Exc Unit) :
    ℕ → PMState → ℕ → ℕ → BodyOut
  | 0, _, fits, saves => BodyOut.running fits saves
  | fuel + 1, s, fits, saves =>
      match s.optimize_event with
      | none => BodyOut.raised Exc.attributeError fits saves
      | some false => BodyOut.done fits saves
      | some true =>
          let bound := min s.replay_index s.replay_maxlen
          if bound = 0 then BodyOut.raised Exc.valueError fits saves
          else
            let idx := (List.range s.batch_size).map
              (fun t => rand s.training_step t % bound)
            match fitRes (drawn_batch s idx) s.training_step with
            | Except.error e => BodyOut.raised e fits saves
            | Except.ok _ =>
                let s1 := { s with training_step := s.training_step + 1 }
                if s1.training_step = s1.checkpoint then
                  let s2 := { s1 with
                    checkpoint := s1.checkpoint + s1.checkpoint_interval }
                  match saveRes s2.checkpoint with
                  | Except.error e => BodyOut.raised e (fits + 1) saves
                  | Except.ok _ =>
                      train_loop rand fitRes saveRes fuel s2 (fits + 1)
                        (saves + 1)
                else train_loop rand fitRes saveRes fuel s1 (fits + 1) saves

/-- The `try` block of `_train_process` (lines 193-212): first
`self.replay_ready.wait()` — reading the never-assigned attribute raises
`AttributeError`; waiting on an existing but never-set event blocks forever —
then the optimize loop. -/
def train_body (rand : ℕ → ℕ → ℕ)
    (fitRes : List (List ℚ) × List (List ℚ) × List ℚ → ℕ → Except Exc Unit)
    (saveRes : ℕ → Except Exc Unit) (fuel : ℕ) (s : PMState) : BodyOut :=
  match s.replay_ready with
  | none => BodyOut.raised Exc.attributeError 0 0
  | some false => BodyOut.blocked
  | some true => train_loop rand fitRes saveRes fuel s 0 0

/-- What one run of `_train_process` did: the error reported through the
observability sink (`self._nn_logger.error`, line 215), the exception
leaving the function (`sys.exit(0)` raises `SystemExit`, line 216), and the
completed fit/save counts. -/
structure CoordinatorOutcome where
  logged : Option Exc
  raised : Option Exc
  fits : ℕ
  saves : ℕ
  deriving DecidableEq, Repr

/-- `NNPolicyManager._train_process` (lines 187-216):
`try: wait; loop  except Exception as e: self._nn_logger.error(...);
sys.exit(0)`.  Every exception escaping the body is logged and converted
into a `SystemExit` raised out of the function. -/
def train_process (rand : ℕ → ℕ → ℕ)
    (fitRes : List (List ℚ) × List (List ℚ) × List ℚ → ℕ → Except Exc Unit)
    (saveRes : ℕ → Except Exc Unit) (fuel : ℕ) (s : PMState) :
    CoordinatorOutcome :=
  match train_body rand fitRes saveRes fuel s with
  | BodyOut.raised e fits saves =>
      { logged := some e, raised := some Exc.systemExit,
        fits := fits, saves := saves }
  | BodyOut.done fits saves =>
      { logged := none, raised := none, fits := fits, saves := saves }
  | BodyOut.running fits saves =>
      { logged := none, raised := none, fits := fits, saves := saves }
  | BodyOut.blocked =>
      { logged := none, raised := none, fits := 0, saves := 0 }

/-- Result of running the coordinator as the target of `threading.Thread`
(line 122). -/
structure ThreadOutcome where
  threadEnded : Bool
  processExited : Bool
  unhandled : Option Exc
  deriving DecidableEq, Repr

/-- CPython thread semantics (documented behavior, not repository code):
`sys.exit` only raises `SystemExit`, and it terminates the interpreter only
when it propagates out of the MAIN thread; `threading.excepthook` silently
ignores a `SystemExit` escaping a thread target and merely reports any other
escaping exception.  Hence no exception raised inside the thread target ever
terminates the host process — only the thread itself ends. -/
def thread_run (c : CoordinatorOutcome) : ThreadOutcome :=
  match c.raised with
  | some Exc.systemExit =>
      { threadEnded := true, processExited := false, unhandled := none }
  | some e =>
      { threadEnded := true, processExited := false, unhandled := some e }
  | none =>
      { threadEnded := true, processExited := false, unhandled := none }

/-- The first batch `_train_process` would gather in a state `s`: the drawn
indices are the `batch_size` oracle values at step `s.training_step` reduced
into `[0, min(replay_index, replay_maxlen))`. -/
def first_batch (rand : ℕ → ℕ → ℕ) (s : PMState) :
    List (List ℚ) × List (List ℚ) × List ℚ :=
  drawn_batch s ((List.range s.batch_size).map
    (fun t => rand s.training_step t % min s.replay_index s.replay_maxlen))

/-- A manager state in which the two events that `__init__` forgets to
create are present and set, and the buffer already holds six samples — the
state the training loop was designed to run in. -/
def readyManager : PMState :=
  { defaultManager with
    replay_ready := some true
    optimize_event := some true
    replay_index := 6 }

/-- The coordinator outcome on a freshly constructed default manager, with a
collaborator that never fails and plenty of fuel. -/
def freshRun : CoordinatorOutcome :=
  train_process (fun _ _ => 0) (fun _ _ => Except.ok ())
    (fun _ => Except.ok ()) 100 defaultManager

/-- A second concrete node, with nonzero statistics, for the root-blend
evaluations. -/
def nodeEx2 : Node :=
  ⟨[0, 1], [⟨1, 2⟩, ⟨0, 1⟩, ⟨0, 0⟩]⟩

/-- The default manager with a different noise configuration
(`epsilon = 0.1`, `alpha = 0.5`, both inside `(0, 1)`). -/
def lowNoiseManager : PMState :=
  { defaultManager with epsilon := 1/10, alpha := 1/2 }

/-- A freshly constructed manager with `memory_size = 1`: its
`min_train_capacity` is `1 // 2 = 0`, the degenerate configuration in which
`update`'s slot computation divides by zero. -/
def tinyManager : PMState :=
  NNPolicyManager_init (fun _ => [1/2, 1/4, 1/4]) 2 3
    1000 400 (55/100) 1 (3/100) (1/4) (141/100) [(0, 1/100)] 4 false

/-- C1: the claim says each `update` writes its sample to slot
`cursor mod capacity` (capacity `K = memory_size`).  The code instead
computes the slot as `cursor mod min_train_capacity` (`= K / 2`): with the
default `memory_size = 10`, after five appends the cursor is `5`, and the
sixth append (reward `7`) lands in slot `5 mod 5 = 0` while slot
`5 = 5 mod 10` keeps its initial zero — so slots `5..9` are never written
and the buffer can never hold `K` live samples. -/
theorem update_slot_uses_min_train_capacity :
    (updates nodeEx 3 5 defaultManager).replay_index = 5 ∧
    (updates nodeEx 3 5 defaultManager).min_train_capacity = 5 ∧
    (updates nodeEx 3 5 defaultManager).replay_maxlen = 10 ∧
    (update (updates nodeEx 3 5 defaultManager) nodeEx 7).1.replay_rewards.getD 0 0 = 7 ∧
    (update (updates nodeEx 3 5 defaultManager) nodeEx 7).1.replay_rewards.getD 5 0 = 0 := by
  decide

/-- C2: the claim says the 5th `update` call (capacity 10, minimum training
capacity 5) flips the readiness signal.  In the code every one of the five
calls raises `AttributeError` at `self.replay_ready.is_set()` — `__init__`
never creates `replay_ready` — and after all five calls readiness is still
absent (never flipped), even though the cursor has advanced to 5. -/
theorem readiness_never_flips :
    ((update defaultManager nodeEx 3).2 = some Exc.attributeError) ∧
    ((update (updates nodeEx 3 1 defaultManager) nodeEx 3).2 = some Exc.attributeError) ∧
    ((update (updates nodeEx 3 2 defaultManager) nodeEx 3).2 = some Exc.attributeError) ∧
    ((update (updates nodeEx 3 3 defaultManager) nodeEx 3).2 = some Exc.attributeError) ∧
    ((update (updates nodeEx 3 4 defaultManager) nodeEx 3).2 = some Exc.attributeError) ∧
    (updates nodeEx 3 5 defaultManager).replay_ready = none ∧
    (updates nodeEx 3 5 defaultManager).replay_index = 5 ∧
    (updates nodeEx 3 5 defaultManager).min_train_capacity = 5 := by
  decide

/-- C3: the claim says evaluation compares the candidate's win fraction with
the update threshold and promotes iff strictly greater.  The code raises
`NameError` (undefined global `MCTS`, and later `current_agent`,
`next_agent`, `validation_games`) before a single validation game is played,
so no promotion decision is ever taken.  Even the unreachable comparison on
lines 250-252, taken in isolation, cannot promote: with win fraction
0.6 > 0.55 (240 of 400 wins) its promote branch raises `AttributeError` at
`self.info(...)` before the model assignment, and with 0.5 it takes the
silent branch — in both cases the live model is left unchanged. -/
theorem evaluation_raises_before_promotion :
    evaluation defaultManager = Except.error Exc.nameError ∧
    (evaluation_decision defaultManager 240).2 = some Exc.attributeError ∧
    (evaluation_decision defaultManager 240).1.model = defaultManager.model ∧
    (evaluation_decision defaultManager 200).2 = none ∧
    (evaluation_decision defaultManager 200).1.model = defaultManager.model := by
  refine ⟨rfl, ?_, ?_, ?_, ?_⟩ <;> simp only [evaluation_decision] <;>
    norm_num [defaultManager, NNPolicyManager_init]

/-- C4: if the model collaborator fails during `fit`, or during the `save`
triggered at a checkpoint boundary, inside the training loop, then the
coordinator logs the error through its observability logger, leaves its loop
by raising `SystemExit` (`sys.exit(0)`), and — being a `threading.Thread`
target — terminates only its own thread, never the host process. -/
theorem train_failure_isolated
    (rand : ℕ → ℕ → ℕ)
    (fitRes : List (List ℚ) × List (List ℚ) × List ℚ → ℕ → Except Exc Unit)
    (saveRes : ℕ → Except Exc Unit) (n : ℕ) (s : PMState) (e : Exc)
    (hready : s.replay_ready = some true)
    (hopt : s.optimize_event = some true)
    (hdata : 0 < min s.replay_index s.replay_maxlen)
    (hfail : fitRes (first_batch rand s) s.training_step = Except.error e
      ∨ (fitRes (first_batch rand s) s.training_step = Except.ok ()
         ∧ s.training_step + 1 = s.checkpoint
         ∧ saveRes (s.checkpoint + s.checkpoint_interval) = Except.error e)) :
    (train_process rand fitRes saveRes (n + 1) s).logged = some e ∧
    (train_process rand fitRes saveRes (n + 1) s).raised = some Exc.systemExit ∧
    (thread_run (train_process rand fitRes saveRes (n + 1) s)).processExited = false ∧
    (thread_run (train_process rand fitRes saveRes (n + 1) s)).threadEnded = true := by
  have hbound : ¬ (min s.replay_index s.replay_maxlen = 0) := by omega
  have hb : ∃ fits saves, train_body rand fitRes saveRes (n + 1) s
      = BodyOut.raised e fits saves := by
    simp only [train_body, hready]
    rcases hfail with h | ⟨hok, hcp, hsave⟩
    · refine ⟨0, 0, ?_⟩
      simp only [train_loop, hopt, if_neg hbound, first_batch, drawn_batch] at h ⊢
      rw [h]
    · refine ⟨1, 0, ?_⟩
      simp only [train_loop, hopt, if_neg hbound, first_batch, drawn_batch] at hok ⊢
      rw [hok]
      simp only [if_pos hcp]
      rw [hsave]
  obtain ⟨fits, saves, hb⟩ := hb
  simp [train_process, hb, thread_run]

/-- Closed check of `train_failure_isolated`: a state with both events
present and set, six live samples, and a collaborator whose `fit` always
fails with error code 7. -/
theorem train_failure_isolated_check :
    (train_process (fun _ _ => 0)
        (fun _ _ => Except.error (Exc.fitError 7))
        (fun _ => Except.ok ()) 1 readyManager).logged = some (Exc.fitError 7) ∧
    (train_process (fun _ _ => 0)
        (fun _ _ => Except.error (Exc.fitError 7))
        (fun _ => Except.ok ()) 1 readyManager).raised = some Exc.systemExit ∧
    (thread_run (train_process (fun _ _ => 0)
        (fun _ _ => Except.error (Exc.fitError 7))
        (fun _ => Except.ok ()) 1 readyManager)).processExited = false ∧
    (thread_run (train_process (fun _ _ => 0)
        (fun _ _ => Except.error (Exc.fitError 7))
        (fun _ => Except.ok ()) 1 readyManager)).threadEnded = true :=
  train_failure_isolated (fun _ _ => 0)
    (fun _ _ => Except.error (Exc.fitError 7)) (fun _ => Except.ok ())
    0 readyManager (Exc.fitError 7) rfl rfl (by decide) (Or.inl rfl)

/-- Indexing the two-element action list `[0, 2]` at any position (with
default 0) yields a member of that list. -/
theorem getD_mem_02 (i : ℕ) :
    (([0, 2] : List ℕ).getD i 0) ∈ ([0, 2] : List ℕ) := by
  match i with
  | 0 => decide
  | 1 => decide
  | n + 2 => simp [List.getD]

/-- C5: the claim says `selection` returns a member of the legal action set
for both `is_root=true` and `is_root=false`.  With `is_root=false` the
gather-then-argmax `actions[pi[actions].argmax()]` does return a member of
the set, but with `is_root=true` the code raises `TypeError` — the noise
expression calls the module `numpy.random` itself — and returns no action at
all. -/
theorem selection_root_raises :
    selection defaultManager nodeEx [0, 2] true = Except.error Exc.typeError ∧
    ∃ a, selection defaultManager nodeEx [0, 2] false = Except.ok a ∧
      a ∈ ([0, 2] : List ℕ) := by
  refine ⟨rfl, ?_⟩
  refine ⟨_, rfl, ?_⟩
  exact getD_mem_02 _

/-- C6: the claim says `action_choice` with a move number present looks the
temperature up at the greatest schedule key strictly below the move number.
The code instead raises `AttributeError` for every truthy move number,
because it reads the misspelled attribute `tempurature_schedule`; no
schedule lookup ever happens (and the lookup it attempts filters keys
against the constant 5, not the move number, with no fallback). -/
theorem action_choice_schedule_raises :
    action_choice defaultManager nodeEx (some 3) = Except.error Exc.attributeError ∧
    action_choice defaultManager nodeEx (some 7) = Except.error Exc.attributeError :=
  ⟨rfl, rfl⟩

/-- C7: the claim says that at the root the prior vector is blended with
Dirichlet noise as `(1-eps)*prior + eps*noise` with the blend summing to 1.
No blend is ever formed: for any `alpha` and `epsilon` in `(0,1)` (here the
defaults `0.25/0.03` and also `0.1/0.5`) the root branch raises `TypeError`
at `np.random([self.alpha]*len(probabilities))` — `numpy.random` is a
module, not a callable — before the convex combination is computed. -/
theorem root_noise_never_blended :
    selection defaultManager nodeEx2 [1] true = Except.error Exc.typeError ∧
    selection lowNoiseManager nodeEx2 [0, 1, 2] true = Except.error Exc.typeError :=
  ⟨rfl, rfl⟩

/-- C8: the claim says that while the optimize flag is set each coordinator
iteration draws a batch from `[0, min(total_writes, capacity))` and submits
one `fit` call.  On a freshly constructed manager the coordinator never
reaches its loop: `self.replay_ready.wait()` raises `AttributeError`
(`__init__` creates neither `replay_ready` nor `_optimize_event`), the
handler logs it and raises `SystemExit`, and zero `fit` calls are made. -/
theorem train_process_crashes_on_fresh_manager :
    freshRun.logged = some Exc.attributeError ∧
    freshRun.raised = some Exc.systemExit ∧
    freshRun.fits = 0 ∧
    (thread_run freshRun).processExited = false ∧
    (thread_run freshRun).threadEnded = true :=
  ⟨rfl, rfl, rfl, rfl, rfl⟩

/-- Counterexample to C9 as stated: the claim quantifies over EVERY freshly
constructed manager, but with `memory_size = 1` the construction leaves
`min_train_capacity = 0`, and `update` raises `ZeroDivisionError` at the
slot computation `self._replay_index % self.min_train_capacity` BEFORE any
write: the cursor is not incremented, no array is touched, and the raised
error is not `AttributeError`. -/
theorem update_zero_capacity_counterexample :
    tinyManager.min_train_capacity = 0 ∧
    (update tinyManager nodeEx 3).2 = some Exc.zeroDivisionError ∧
    (update tinyManager nodeEx 3).2 ≠ some Exc.attributeError ∧
    (update tinyManager nodeEx 3).1.replay_index = tinyManager.replay_index ∧
    (update tinyManager nodeEx 3).1.replay_rewards = tinyManager.replay_rewards ∧
    (update tinyManager nodeEx 3).1.replay_states = tinyManager.replay_states := by
  decide

/-- C9 (amended): on any manager whose `replay_ready` attribute is absent —
the state `__init__` leaves behind, and which `update` itself preserves —
and whose `min_train_capacity` is nonzero (i.e. `memory_size >= 2`; with
`memory_size <= 1` the call instead raises `ZeroDivisionError` before any
write, see `update_zero_capacity_counterexample`), every `update` call
first writes the sample at slot `cursor mod min_train_capacity` and
increments the cursor, and only then raises `AttributeError` at the
readiness check: the call never returns normally, and the buffer mutation
is not rolled back. -/
theorem update_mutates_before_raising (s : PMState) (node : Node) (r : ℚ)
    (h : s.replay_ready = none) (h0 : s.min_train_capacity ≠ 0) :
    (update s node r).2 = some Exc.attributeError ∧
    (update s node r).1.replay_ready = none ∧
    (update s node r).1.replay_index = s.replay_index + 1 ∧
    (update s node r).1.replay_rewards
      = s.replay_rewards.set (s.replay_index % s.min_train_capacity) r ∧
    (update s node r).1.replay_states
      = s.replay_states.set (s.replay_index % s.min_train_capacity) node.state := by
  simp [update, h, h0]

/-- Closed check of `update_mutates_before_raising` at a freshly constructed
default manager (whose `replay_ready` is indeed absent and whose
`min_train_capacity` is `10 / 2 = 5`). -/
theorem update_mutates_before_raising_check :
    (update defaultManager nodeEx 3).2 = some Exc.attributeError ∧
    (update defaultManager nodeEx 3).1.replay_index
      = defaultManager.replay_index + 1 ∧
    (update defaultManager nodeEx 3).1.replay_ready = none := by
  have h := update_mutates_before_raising defaultManager nodeEx 3 rfl (by decide)
  exact ⟨h.1, h.2.2.1, h.2.1⟩

/-- C10: `action_choice(node, 0)` takes the move-number-absent branch — the
same `zero_temperature_choice(node)` call as `action_choice(node, None)` —
because Python's `if move_number:` treats 0 as falsy; the temperature
schedule is never consulted. -/
theorem action_choice_zero_move_number (s : PMState) (node : Node) :
    action_choice s node (some 0) = action_choice s node none ∧
    action_choice s node (some 0) = Except.ok (zero_temperature_choice node) :=
  ⟨rfl, rfl⟩

end Mcts
